import Mathlib

/-!
Verification development for the cacao-pandas-ui repository: a shallow
embedding of the glue code in src/cacao_pandas_ui/viewer.py and
src/cacao_pandas_ui/cli.py, together with theorems settling the frozen
claims about it.
-/

namespace CacaoPandasUI

/-- Calendar timestamp, the model of datetime / pandas Timestamp values. -/
structure Timestamp where
  year : Nat
  month : Nat
  day : Nat
  hour : Nat
  minute : Nat
  second : Nat
deriving DecidableEq, Repr, Inhabited

/-- Left zero padding to a given width, as the %Y / %m / ... strftime fields do. -/
def padZeros (w : Nat) (n : Nat) : String :=
  let s := toString n
  if s.length < w then String.mk (List.replicate (w - s.length) '0') ++ s else s

/-- The strftime format string of viewer.py line 74: %Y-%m-%d %H:%M:%S. -/
def Timestamp.strftimeYmdHms (t : Timestamp) : String :=
  padZeros 4 t.year ++ "-" ++ padZeros 2 t.month ++ "-" ++ padZeros 2 t.day ++ " " ++
    padZeros 2 t.hour ++ ":" ++ padZeros 2 t.minute ++ ":" ++ padZeros 2 t.second

/-- One cell value of the source table. vNull models every value for which
pandas isna holds (None, NaN, NaT). vInt and vFloat model values that satisfy
the isinstance (int, float) test of viewer.py line 71 (the real component is
carried as a rational: no arithmetic is ever performed on it, the code only
passes it through). vTimestamp models datetime / pandas Timestamp values.
vStr models str values; vOther models any other object (for example a numpy
bool), carrying the text that str() would produce for it. -/
inductive Value where
  | vNull
  | vInt (n : Int)
  | vFloat (q : Rat)
  | vTimestamp (t : Timestamp)
  | vStr (s : String)
  | vOther (s : String)
deriving DecidableEq, Repr, Inhabited

/-- pd.isna(value), viewer.py line 69. -/
def Value.isna : Value → Bool
  | .vNull => true
  | _ => false

/-- isinstance(value, (int, float)), viewer.py line 71. -/
def Value.isNumeric : Value → Bool
  | .vInt _ => true
  | .vFloat _ => true
  | _ => false

/-- isinstance(value, (datetime, pd.Timestamp)), viewer.py line 73. -/
def Value.isTimestampLike : Value → Bool
  | .vTimestamp _ => true
  | _ => false

/-- Python str() on a cell value. The vFloat case is never reached by the
conversion (numeric values are passed through before str is consulted), so its
text here is a placeholder rendering of the rational. -/
def pyStr : Value → String
  | .vNull => "nan"
  | .vInt n => toString n
  | .vFloat q => toString q
  | .vTimestamp t => t.strftimeYmdHms
  | .vStr s => s
  | .vOther s => s

/-- value.strftime("%Y-%m-%d %H:%M:%S"); only called under the timestamp guard. -/
def Value.strftimeDisplay : Value → String
  | .vTimestamp t => t.strftimeYmdHms
  | v => pyStr v

/-- fillna("N/A") on one cell, viewer.py line 56. -/
def fillnaValue (v : Value) : Value :=
  if v.isna then .vStr "N/A" else v

/-- The per-cell branch chain of viewer.py lines 68-76: null to the sentinel,
numeric passed through, timestamp formatted, everything else through str(). -/
def convertCell (value : Value) : Value :=
  if value.isna then .vStr "N/A"
  else if value.isNumeric then value
  else if value.isTimestampLike then .vStr value.strftimeDisplay
  else .vStr (pyStr value)

/-- The pandas DataFrame, modelled as an ordered column-name list, the row
index labels (default integer index), and the rows, each aligned positionally
with the columns. -/
structure DataFrame where
  cols : List String
  index : List Int
  rows : List (List Value)
deriving DecidableEq, Repr, Inhabited

/-- Rectangularity and index alignment, which pandas maintains for every
DataFrame: every row has one cell per column, and there is one index label
per row. -/
def DataFrame.WF (df : DataFrame) : Prop :=
  (∀ r ∈ df.rows, r.length = df.cols.length) ∧ df.index.length = df.rows.length

instance (df : DataFrame) : Decidable df.WF := by
  unfold DataFrame.WF; infer_instance

/-- df.fillna("N/A"), viewer.py line 56: out of place, returns a new frame. -/
def DataFrame.fillna (df : DataFrame) : DataFrame :=
  { df with rows := df.rows.map (fun r => r.map fillnaValue) }

/-- df.empty: true when any axis has length zero. -/
def DataFrame.emptyFlag (df : DataFrame) : Bool :=
  df.rows.isEmpty || df.cols.isEmpty

/-- Lookup in an ordered key-value list: the value at the first matching key. -/
def recLookup (k : String) : List (String × Value) → Option Value
  | [] => none
  | p :: d => if p.1 = k then some p.2 else recLookup k d

/-- Python dict assignment d[k] = v: an existing key keeps its position and
gets the new value, a fresh key is appended at the end. -/
def dictSet (d : List (String × Value)) (k : String) (v : Value) :
    List (String × Value) :=
  if k ∈ d.map Prod.fst then
    d.map (fun p => if p.1 = k then (k, v) else p)
  else
    d ++ [(k, v)]

/-- row[col] on the Series iterrows yields: the value at the first position
whose column name matches. -/
def seriesGet (cols : List String) (vals : List Value) (col : String) : Value :=
  match recLookup col (cols.zip vals) with
  | some v => v
  | none => Value.vNull

/-- The body of the iterrows loop, viewer.py lines 64-77: start the dict with
the _index field holding str(idx), then write one converted entry per column. -/
def rowRecord (cols : List String) (idx : Int) (vals : List Value) :
    List (String × Value) :=
  cols.foldl (fun rowData col => dictSet rowData col (convertCell (seriesGet cols vals col)))
    [("_index", Value.vStr (toString idx))]

/-- Column descriptor of viewer.py lines 59-60. The dataType field of the
source (the dtype name string) is rendering metadata with no behavior in this
repository and is not modelled. -/
structure ColumnDesc where
  key : String
  title : String
deriving DecidableEq, Repr

/-- The dict returned by _prepare_table_data, viewer.py lines 79-84. -/
structure TableData where
  columns : List ColumnDesc
  data : List (List (String × Value))
  totalRows : Nat
  shape : Nat × Nat
deriving DecidableEq, Repr

/-- The part of _prepare_table_data after the fillna, applied to the filled
frame: column descriptors, one record per iterrows pair, len(df) and shape. -/
def tableDataOfFilled (df : DataFrame) : TableData :=
  { columns := df.cols.map (fun col => { key := col, title := col })
    data := (df.index.zip df.rows).map (fun ir => rowRecord df.cols ir.1 ir.2)
    totalRows := df.rows.length
    shape := (df.rows.length, df.cols.length) }

/-- PandasTablePage._prepare_table_data, viewer.py lines 45-84: copy the
stored frame, fill nulls with the sentinel, convert to records. -/
def prepareTableData (df : DataFrame) : TableData :=
  tableDataOfFilled df.fillna

/-- The display value the record of row i holds for column j. -/
def cellEntry (df : DataFrame) (i j : Nat) : Option Value :=
  recLookup (df.cols.getD j "") ((prepareTableData df).data.getD i [])

/-- The source cell of row i, column j. -/
def cellValue (df : DataFrame) (i j : Nat) : Value :=
  (df.rows.getD i []).getD j Value.vNull

/-- The display tree handed to the renderer: nested div / button / text /
table nodes. Style maps are static string constants in the source and carry
no behavior, so they are not modelled. -/
inductive UINode where
  | div (children : List UINode)
  | button (label : String)
  | textDiv (content : String)
  | table (tid : String) (columns : List ColumnDesc) (data : List (List (String × Value)))

/-- _create_toolbar, viewer.py lines 86-152: two download buttons and the
row/column count readout built from self.dataframe.shape. -/
def createToolbar (shape : Nat × Nat) : UINode :=
  .div [ .button "Download CSV", .button "Download Excel",
    .textDiv ("Rows: " ++ toString shape.1 ++ " | Columns: " ++ toString shape.2) ]

/-- _create_simple_table, viewer.py lines 239-283. -/
def createSimpleTable (td : TableData) : UINode :=
  .table "pandasTable" td.columns td.data

/-- _create_advanced_table in the fallback branch (no cacao components),
viewer.py lines 310-351. -/
def createAdvancedTable (td : TableData) : UINode :=
  .table "pandasAdvancedTable" td.columns td.data

/-- _create_table_component, viewer.py lines 224-237. -/
def createTableComponent (mode : String) (td : TableData) : UINode :=
  if mode = "simple" then createSimpleTable td else createAdvancedTable td

/-- The page object built by PandasTablePage.__init__ after validation. -/
structure PandasTablePage where
  dataframe : DataFrame
  title : Option String
  mode : String
deriving DecidableEq, Repr

/-- The argument handed to PandasTablePage.__init__: either an actual
DataFrame, or any other Python object (carrying only a description). -/
inductive PyInput where
  | dataFrame (df : DataFrame)
  | nonDataFrame (desc : String)

/-- PandasTablePage.__init__, viewer.py lines 21-43: isinstance validation
raising ValueError for non-frames, then plain field assignment (the optional
external plugin construction is an external collaborator and not modelled). -/
def initPandasTablePage (input : PyInput) (title : Option String) (mode : String) :
    Except String PandasTablePage :=
  match input with
  | .dataFrame df => .ok { dataframe := df, title := title, mode := mode }
  | .nonDataFrame _ => .error "Input must be a pandas DataFrame"

/-- PandasTablePage.render in the fallback branch, viewer.py lines 192-222:
prepare the table data, then emit the toolbar over the table component. -/
def renderPage (page : PandasTablePage) : UINode :=
  let tableData := prepareTableData page.dataframe
  .div [ createToolbar (page.dataframe.rows.length, page.dataframe.cols.length),
    .div [ createTableComponent page.mode tableData ] ]

/-- The fragment of cli.main after a successful load, cli.py lines 178-198:
df.empty prints a warning to stderr (no exit), then the page is built and
rendered. Returns the number of warnings printed and the display tree. -/
def mainAfterLoad (df : DataFrame) (title : Option String) (mode : String) :
    Nat × UINode :=
  ((if df.emptyFlag then 1 else 0),
    renderPage { dataframe := df, title := title, mode := mode })

/-- Process state relevant to preview_dataframe: the guard attribute on the
sys module, and counters of observable effects (warnings printed, desktop
windows created). -/
structure SysState where
  viewerRunning : Bool
  warningsPrinted : Nat
  windowsCreated : Nat
deriving DecidableEq, Repr

/-- preview_dataframe, viewer.py lines 354-414. bodyErr abstracts the
try-block body (App construction, page validation and app.brew): none means
it completes and creates the window, some e means it raises e. The guard: a
set flag makes the call print a warning and return with no window; otherwise
the flag is set, the body runs, and the finally clause clears the flag on
both exits. -/
def previewDataframe (bodyErr : Option String) (s : SysState) :
    SysState × Except String Unit :=
  if s.viewerRunning then
    ({ s with warningsPrinted := s.warningsPrinted + 1 }, Except.ok ())
  else
    let s1 : SysState := { s with viewerRunning := true }
    let s2 : SysState :=
      match bodyErr with
      | none => { s1 with windowsCreated := s1.windowsCreated + 1 }
      | some _ => s1
    ({ s2 with viewerRunning := false },
      match bodyErr with
      | none => Except.ok ()
      | some e => Except.error e)

/-- Split a character list at every occurrence of a separator. -/
def splitOnChar (sep : Char) : List Char → List (List Char)
  | [] => [[]]
  | c :: cs =>
    if c = sep then [] :: splitOnChar sep cs
    else
      match splitOnChar sep cs with
      | [] => [[c]]
      | h :: t => (c :: h) :: t

/-- The final path component, as pathlib computes the name: empty and single
dot components do not count, the last remaining component is the name. -/
def pathName (filepath : String) : List Char :=
  ((splitOnChar '/' filepath.data).filter (fun c => c ≠ [] ∧ c ≠ ['.'])).getLastD []

/-- rfind of a character: the index of its last occurrence, if any. -/
def rfindChar (s : List Char) (c : Char) : Option Nat :=
  s.enum.foldl (fun acc p => if p.2 = c then some p.1 else acc) none

/-- Path(filepath).suffix: the name from its last dot on, provided that dot
is neither the first nor the last character of the name; empty otherwise. -/
def pathSuffix (filepath : String) : String :=
  let name := pathName filepath
  match rfindChar name '.' with
  | some i => if 0 < i ∧ i < name.length - 1 then String.mk (name.drop i) else ""
  | none => ""

/-- ASCII lowering, the model of str.lower on extension strings. -/
def lowerStr (s : String) : String :=
  String.mk (s.data.map Char.toLower)

/-- What a delegated pandas reader call does: return a frame or raise. -/
inductive ReadResult where
  | ok (df : DataFrame)
  | fail (msg : String)

/-- Lift one reader outcome into the try block. -/
def runRead (r : ReadResult) : Except String DataFrame :=
  match r with
  | .ok df => .ok df
  | .fail msg => .error msg

/-- load_dataframe_from_file, cli.py lines 12-46. The read oracle stands for
the pandas readers (read_csv, read_excel, ...), keyed by the reader used and
the file path. The extension dispatch and the blanket except clause that
wraps every failure with the file path follow the source line for line. -/
def load_dataframe_from_file (read : String → String → ReadResult)
    (filepath : String) : Except String DataFrame :=
  let file_extension := lowerStr (pathSuffix filepath)
  let attempt : Except String DataFrame :=
    if file_extension = ".csv" then runRead (read "read_csv" filepath)
    else if file_extension = ".xlsx" ∨ file_extension = ".xls" then
      runRead (read "read_excel" filepath)
    else if file_extension = ".json" then runRead (read "read_json" filepath)
    else if file_extension = ".parquet" then runRead (read "read_parquet" filepath)
    else if file_extension = ".tsv" ∨ file_extension = ".tab" then
      runRead (read "read_csv_tab" filepath)
    else if file_extension = ".pkl" ∨ file_extension = ".pickle" then
      runRead (read "read_pickle" filepath)
    else .error ("Unsupported file format: " ++ file_extension)
  match attempt with
  | .ok df => .ok df
  | .error msg => .error ("Error loading file '" ++ filepath ++ "': " ++ msg)

/-- The extensions the dispatch of load_dataframe_from_file recognizes. -/
def supportedExtensions : List String :=
  [".csv", ".xlsx", ".xls", ".json", ".parquet", ".tsv", ".tab", ".pkl", ".pickle"]

/-- Heap of DataFrame objects, for the aliasing-sensitive reading of
_prepare_table_data: references are positions, allocation appends. -/
def runPrepareHeap (heap : List DataFrame) (self : Nat) :
    List DataFrame × TableData :=
  let df0 := heap.getD self default
  let heap1 := heap ++ [df0]
  let copyRef := heap.length
  let df1 := (heap1.getD copyRef default).fillna
  let heap2 := heap1 ++ [df1]
  let fillRef := heap1.length
  (heap2, tableDataOfFilled (heap2.getD fillRef default))

/-- render on the heap model: prepare the data, then read the shape of the
stored frame for the toolbar. -/
def runRenderHeap (heap : List DataFrame) (self : Nat) (mode : String) :
    List DataFrame × UINode :=
  let p := runPrepareHeap heap self
  let df0 := p.1.getD self default
  (p.1, UINode.div [ createToolbar (df0.rows.length, df0.cols.length),
    .div [ createTableComponent mode p.2 ] ])

/-- One method call on the page: _prepare_table_data or render. -/
inductive ViewerCall where
  | prepareCall
  | renderCall (mode : String)

/-- The heap after one call. -/
def applyCall (self : Nat) (heap : List DataFrame) : ViewerCall → List DataFrame
  | .prepareCall => (runPrepareHeap heap self).1
  | .renderCall m => (runRenderHeap heap self m).1

/-- The heap after a sequence of calls. -/
def applyCalls (self : Nat) (heap : List DataFrame) (calls : List ViewerCall) :
    List DataFrame :=
  calls.foldl (applyCall self) heap

/-- Two-row example frame used by concrete witnesses. -/
def dfPeople : DataFrame :=
  { cols := ["Name", "Age"], index := [0, 1],
    rows := [[Value.vStr "Alice", Value.vInt 25], [Value.vNull, Value.vInt 30]] }

/-- An example frame whose only column is itself called _index. -/
def dfUnderscore : DataFrame :=
  { cols := ["_index"], index := [0], rows := [[Value.vInt 5]] }

/-- An example frame with zero rows. -/
def dfNoRows : DataFrame :=
  { cols := ["a"], index := [], rows := [] }

/-- An example frame holding one timestamp cell. -/
def dfStamp : DataFrame :=
  { cols := ["ts"], index := [0],
    rows := [[Value.vTimestamp (Timestamp.mk 2023 1 1 0 0 0)]] }

/-- An example frame with a real-valued and a non-scalar cell. -/
def dfMixed : DataFrame :=
  { cols := ["x", "flag"], index := [7],
    rows := [[Value.vFloat 3, Value.vOther "True"]] }

theorem recLookup_map_set_ne (k k' : String) (v : Value) (hne : k' ≠ k) :
    ∀ d : List (String × Value),
      recLookup k' (d.map (fun p => if p.1 = k then (k, v) else p)) = recLookup k' d := by
  intro d
  induction d with
  | nil => rfl
  | cons p d ih =>
    by_cases hp : p.1 = k
    · have hp2 : p.1 ≠ k' := fun hx => hne ((hp ▸ hx).symm ▸ rfl)
      have hk : k ≠ k' := hp ▸ hp2
      simp [recLookup, hp, hk, hp2, ih]
    · by_cases hq : p.1 = k'
      · simp [recLookup, hp, hq, hne]
      · simp [recLookup, hp, hq, ih]

theorem recLookup_append_single_ne (k k' : String) (v : Value) (hne : k' ≠ k) :
    ∀ d : List (String × Value), recLookup k' (d ++ [(k, v)]) = recLookup k' d := by
  intro d
  induction d with
  | nil => simp [recLookup, Ne.symm hne]
  | cons p d ih =>
    by_cases hq : p.1 = k'
    · simp [recLookup, hq]
    · simp [recLookup, hq, ih]

theorem recLookup_dictSet_ne (k k' : String) (v : Value) (hne : k' ≠ k)
    (d : List (String × Value)) : recLookup k' (dictSet d k v) = recLookup k' d := by
  unfold dictSet
  by_cases h : k ∈ d.map Prod.fst
  · simp only [h, if_true]
    exact recLookup_map_set_ne k k' v hne d
  · simp only [h, if_false]
    exact recLookup_append_single_ne k k' v hne d

theorem recLookup_dictSet_self (k : String) (v : Value) :
    ∀ d : List (String × Value), recLookup k (dictSet d k v) = some v := by
  intro d
  unfold dictSet
  by_cases h : k ∈ d.map Prod.fst
  · simp only [h, if_true]
    induction d with
    | nil => simp at h
    | cons p d ih =>
      by_cases hp : p.1 = k
      · simp [recLookup, hp]
      · have h2 : k ∈ d.map Prod.fst := by
          rcases List.mem_map.mp h with ⟨q, hq, hq2⟩
          rcases List.mem_cons.mp hq with rfl | hq3
          · exact absurd hq2 hp
          · exact List.mem_map.mpr ⟨q, hq3, hq2⟩
        simp [recLookup, hp, ih h2]
  · simp only [h, if_false]
    induction d with
    | nil => simp [recLookup]
    | cons p d ih =>
      have hp : p.1 ≠ k := fun hx => h (List.mem_map.mpr ⟨p, List.mem_cons_self p d, hx⟩)
      have h2 : k ∉ d.map Prod.fst := fun hx => by
        rcases List.mem_map.mp hx with ⟨q, hq, hq2⟩
        exact h (List.mem_map.mpr ⟨q, List.mem_cons_of_mem p hq, hq2⟩)
      simp [recLookup, hp, ih h2]

theorem recLookup_foldl_dictSet_not_mem (g : String → Value) :
    ∀ (l : List String) (d : List (String × Value)) (c : String), c ∉ l →
      recLookup c (l.foldl (fun acc col => dictSet acc col (g col)) d) = recLookup c d := by
  intro l
  induction l with
  | nil => intro d c _; rfl
  | cons a l ih =>
    intro d c hc
    have hca : c ≠ a := fun hx => hc (hx ▸ List.mem_cons_self a l)
    have hcl : c ∉ l := fun hx => hc (List.mem_cons_of_mem a hx)
    simp only [List.foldl_cons]
    rw [ih _ c hcl, recLookup_dictSet_ne a c (g a) hca]

theorem recLookup_foldl_dictSet_mem (g : String → Value) :
    ∀ (l : List String) (d : List (String × Value)) (c : String), l.Nodup → c ∈ l →
      recLookup c (l.foldl (fun acc col => dictSet acc col (g col)) d) = some (g c) := by
  intro l
  induction l with
  | nil => intro d c _ hc; simp at hc
  | cons a l ih =>
    intro d c hnd hc
    simp only [List.foldl_cons]
    rcases List.mem_cons.mp hc with rfl | hcl
    · have hcl : c ∉ l := (List.nodup_cons.mp hnd).1
      rw [recLookup_foldl_dictSet_not_mem g l _ c hcl, recLookup_dictSet_self]
    · exact ih _ c (List.nodup_cons.mp hnd).2 hcl

theorem dictSet_of_fresh (d : List (String × Value)) (k : String) (v : Value)
    (h : k ∉ d.map Prod.fst) : dictSet d k v = d ++ [(k, v)] := by
  unfold dictSet
  simp [h]

theorem foldl_dictSet_fresh (g : String → Value) :
    ∀ (l : List String) (d : List (String × Value)), l.Nodup →
      (∀ k ∈ l, k ∉ d.map Prod.fst) →
      l.foldl (fun acc col => dictSet acc col (g col)) d
        = d ++ l.map (fun c => (c, g c)) := by
  intro l
  induction l with
  | nil => intro d _ _; simp
  | cons a l ih =>
    intro d hnd hfresh
    simp only [List.foldl_cons]
    rw [dictSet_of_fresh d a (g a) (hfresh a (List.mem_cons_self a l))]
    have hfresh2 : ∀ k ∈ l, k ∉ (d ++ [(a, g a)]).map Prod.fst := by
      intro k hk hx
      rw [List.map_append] at hx
      rcases List.mem_append.mp hx with hx1 | hx2
      · exact hfresh k (List.mem_cons_of_mem a hk) hx1
      · simp at hx2
        exact (List.nodup_cons.mp hnd).1 (hx2 ▸ hk)
    rw [ih (d ++ [(a, g a)]) (List.nodup_cons.mp hnd).2 hfresh2]
    simp

theorem listGetD_mem {α : Type} (l : List α) (n : Nat) (d : α) (h : n < l.length) :
    l.getD n d ∈ l := by
  rw [List.getD_eq_getElem l d h]
  exact List.getElem_mem h

theorem seriesGet_at :
    ∀ (cols : List String) (vals : List Value) (j : Nat), cols.Nodup →
      vals.length = cols.length → j < cols.length →
      seriesGet cols vals (cols.getD j "") = vals.getD j Value.vNull := by
  intro cols
  induction cols with
  | nil => intro vals j _ _ hj; simp at hj
  | cons c cs ih =>
    intro vals j hnd hlen hj
    cases vals with
    | nil => simp at hlen
    | cons v vs =>
      cases j with
      | zero => simp [seriesGet, recLookup]
      | succ j =>
        have hj2 : j < cs.length := Nat.lt_of_succ_lt_succ hj
        have hlen2 : vs.length = cs.length := by simpa using hlen
        have hmem : cs.getD j "" ∈ cs := listGetD_mem cs j "" hj2
        have hcne : c ≠ cs.getD j "" := by
          intro hx
          exact (List.nodup_cons.mp hnd).1 (hx ▸ hmem)
        have hstep : seriesGet (c :: cs) (v :: vs) (cs.getD j "")
            = seriesGet cs vs (cs.getD j "") := by
          unfold seriesGet
          have hlk : recLookup (cs.getD j "") ((c :: cs).zip (v :: vs))
              = recLookup (cs.getD j "") (cs.zip vs) := by
            rw [List.zip_cons_cons]
            show (if c = cs.getD j "" then some v else recLookup (cs.getD j "") (cs.zip vs))
              = recLookup (cs.getD j "") (cs.zip vs)
            rw [if_neg hcne]
          rw [hlk]
        simp only [List.getD_cons_succ]
        rw [hstep, ih vs j (List.nodup_cons.mp hnd).2 hlen2 hj2]

theorem prepareData_length (df : DataFrame) (hidx : df.index.length = df.rows.length) :
    (prepareTableData df).data.length = df.rows.length := by
  simp [prepareTableData, tableDataOfFilled, DataFrame.fillna, hidx]

theorem prepareData_row (df : DataFrame) (hidx : df.index.length = df.rows.length)
    (i : Nat) (hi : i < df.rows.length) :
    (prepareTableData df).data.getD i []
      = rowRecord df.cols (df.index.getD i 0) ((df.rows.getD i []).map fillnaValue) := by
  have hi2 : i < (prepareTableData df).data.length := by
    rw [prepareData_length df hidx]; exact hi
  rw [List.getD_eq_getElem _ _ hi2]
  simp only [prepareTableData, tableDataOfFilled, DataFrame.fillna]
  rw [List.getElem_map, List.getElem_zip, List.getElem_map]
  congr 1
  · rw [List.getD_eq_getElem]
  · rw [List.getD_eq_getElem]

theorem rowRecord_eq (cols : List String) (idx : Int) (vals : List Value)
    (hnd : cols.Nodup) (hix : "_index" ∉ cols) :
    rowRecord cols idx vals
      = ("_index", Value.vStr (toString idx))
        :: cols.map (fun c => (c, convertCell (seriesGet cols vals c))) := by
  unfold rowRecord
  have h := foldl_dictSet_fresh (fun c => convertCell (seriesGet cols vals c)) cols
    [("_index", Value.vStr (toString idx))] hnd ?fresh
  · simpa using h
  case fresh =>
    intro k hk hmem
    simp at hmem
    exact hix (hmem ▸ hk)

theorem cellEntry_spec (df : DataFrame) (hwf : df.WF) (hnd : df.cols.Nodup)
    (i j : Nat) (hi : i < df.rows.length) (hj : j < df.cols.length) :
    cellEntry df i j = some (convertCell (fillnaValue (cellValue df i j))) := by
  obtain ⟨hrect, hidx⟩ := hwf
  have hvlen : ((df.rows.getD i []).map fillnaValue).length = df.cols.length := by
    rw [List.length_map]
    exact hrect (df.rows.getD i []) (listGetD_mem df.rows i [] hi)
  have hcmem : df.cols.getD j "" ∈ df.cols := listGetD_mem df.cols j "" hj
  have hrec := recLookup_foldl_dictSet_mem
    (fun col => convertCell (seriesGet df.cols ((df.rows.getD i []).map fillnaValue) col))
    df.cols [("_index", Value.vStr (toString (df.index.getD i 0)))]
    (df.cols.getD j "") hnd hcmem
  simp only [] at hrec
  have hser := seriesGet_at df.cols ((df.rows.getD i []).map fillnaValue) j hnd hvlen hj
  have hget : ((df.rows.getD i []).map fillnaValue).getD j Value.vNull
      = fillnaValue ((df.rows.getD i []).getD j Value.vNull) := by
    have hjv : j < (df.rows.getD i []).length := by
      have := hrect (df.rows.getD i []) (listGetD_mem df.rows i [] hi)
      omega
    have hjm : j < ((df.rows.getD i []).map fillnaValue).length := by
      rw [List.length_map]; exact hjv
    rw [List.getD_eq_getElem _ _ hjm, List.getElem_map, List.getD_eq_getElem _ _ hjv]
  unfold cellEntry
  rw [prepareData_row df hidx i hi]
  unfold rowRecord
  rw [hrec, hser, hget]
  rfl

theorem map_fst_pairs (g : String → Value) (l : List String) :
    (l.map (fun c => (c, g c))).map Prod.fst = l := by
  induction l with
  | nil => rfl
  | cons a l ih => simp only [List.map_cons, ih]

theorem runPrepareHeap_heap (heap : List DataFrame) (self : Nat) :
    (runPrepareHeap heap self).1
      = (heap ++ [heap.getD self default]) ++ [(heap.getD self default).fillna] := by
  simp only [runPrepareHeap]
  have h1 : (heap ++ [heap.getD self default]).getD heap.length default
      = heap.getD self default := by
    rw [List.getD_append_right _ _ _ _ (le_refl _)]
    simp
  rw [h1]

theorem runPrepareHeap_data (heap : List DataFrame) (self : Nat) :
    (runPrepareHeap heap self).2 = prepareTableData (heap.getD self default) := by
  simp only [runPrepareHeap]
  have h1 : (heap ++ [heap.getD self default]).getD heap.length default
      = heap.getD self default := by
    rw [List.getD_append_right _ _ _ _ (le_refl _)]
    simp
  rw [h1]
  have h2 : ((heap ++ [heap.getD self default]) ++ [(heap.getD self default).fillna]).getD
      (heap ++ [heap.getD self default]).length default
      = (heap.getD self default).fillna := by
    rw [List.getD_append_right _ _ _ _ (le_refl _)]
    simp
  rw [h2]
  rfl

theorem applyCall_preserve (self : Nat) (heap : List DataFrame) (c : ViewerCall)
    (hs : self < heap.length) :
    (applyCall self heap c).getD self default = heap.getD self default ∧
    self < (applyCall self heap c).length := by
  have hkey : ((heap ++ [heap.getD self default]) ++ [(heap.getD self default).fillna]).getD
      self default = heap.getD self default := by
    rw [List.getD_append _ _ _ _ (by simpa using Nat.lt_succ_of_lt (by simpa using hs))]
    rw [List.getD_append _ _ _ _ hs]
  have hlen : self < ((heap ++ [heap.getD self default])
      ++ [(heap.getD self default).fillna]).length := by
    simp
    omega
  cases c with
  | prepareCall =>
    constructor
    · show (runPrepareHeap heap self).1.getD self default = _
      rw [runPrepareHeap_heap]; exact hkey
    · show self < (runPrepareHeap heap self).1.length
      rw [runPrepareHeap_heap]; exact hlen
  | renderCall m =>
    constructor
    · show (runRenderHeap heap self m).1.getD self default = _
      have : (runRenderHeap heap self m).1 = (runPrepareHeap heap self).1 := rfl
      rw [this, runPrepareHeap_heap]; exact hkey
    · show self < (runRenderHeap heap self m).1.length
      have : (runRenderHeap heap self m).1 = (runPrepareHeap heap self).1 := rfl
      rw [this, runPrepareHeap_heap]; exact hlen

theorem applyCalls_preserve (self : Nat) :
    ∀ (calls : List ViewerCall) (heap : List DataFrame), self < heap.length →
      (applyCalls self heap calls).getD self default = heap.getD self default := by
  intro calls
  induction calls with
  | nil => intro heap _; rfl
  | cons c cs ih =>
    intro heap hs
    have h := applyCall_preserve self heap c hs
    show (applyCalls self (applyCall self heap c) cs).getD self default = _
    rw [ih _ h.2, h.1]

/-- C1 (amended): for a frame whose column names are pairwise distinct and do
not include the reserved name _index, _prepare_table_data produces exactly one
display record per source row, in row order; record i has exactly M+1 distinct
keys, the _index field (holding the original row index as a string) followed
by the M column names in source column order. -/
theorem claim_C1_records (df : DataFrame) (hwf : df.WF) (hnd : df.cols.Nodup)
    (hix : "_index" ∉ df.cols) :
    (prepareTableData df).data.length = df.rows.length ∧
    (∀ i, i < df.rows.length →
      ((prepareTableData df).data.getD i []).map Prod.fst = "_index" :: df.cols ∧
      (((prepareTableData df).data.getD i []).map Prod.fst).Nodup ∧
      recLookup "_index" ((prepareTableData df).data.getD i [])
        = some (Value.vStr (toString (df.index.getD i 0)))) := by
  obtain ⟨hrect, hidx⟩ := hwf
  refine ⟨prepareData_length df hidx, ?_⟩
  intro i hi
  rw [prepareData_row df hidx i hi,
    rowRecord_eq df.cols (df.index.getD i 0) ((df.rows.getD i []).map fillnaValue) hnd hix]
  refine ⟨?_, ?_, ?_⟩
  · rw [List.map_cons, map_fst_pairs]
  · rw [List.map_cons, map_fst_pairs]
    exact List.nodup_cons.mpr ⟨hix, hnd⟩
  · simp [recLookup]

/-- C1 witness: the amended statement evaluated on a concrete two-row frame. -/
theorem claim_C1_records_witness :
    dfPeople.WF ∧ dfPeople.cols.Nodup ∧ "_index" ∉ dfPeople.cols ∧
    (prepareTableData dfPeople).data.length = 2 ∧
    ((prepareTableData dfPeople).data.getD 0 []).map Prod.fst
      = ["_index", "Name", "Age"] ∧
    recLookup "_index" ((prepareTableData dfPeople).data.getD 1 [])
      = some (Value.vStr "1") :=
  ⟨by decide, by decide, by decide,
    (claim_C1_records dfPeople (by decide) (by decide) (by decide)).1,
    ((claim_C1_records dfPeople (by decide) (by decide) (by decide)).2 0 (by decide)).1,
    ((claim_C1_records dfPeople (by decide) (by decide) (by decide)).2 1 (by decide)).2.2⟩

/-- C1 counterexample: the claim as frozen fails on a frame that has a column
literally named _index: the frame has M = 1 column, yet the single display
record has 1 key, not M+1 = 2, because the column entry overwrites the
_index field in the record dict. -/
theorem claim_C1_counterexample :
    dfUnderscore.WF ∧ dfUnderscore.cols.Nodup ∧
    dfUnderscore.cols.length = 1 ∧
    (prepareTableData dfUnderscore).data.length = 1 ∧
    ((prepareTableData dfUnderscore).data.getD 0 []).length = 1 ∧
    ((prepareTableData dfUnderscore).data.getD 0 []).length
      ≠ dfUnderscore.cols.length + 1 := by
  decide

/-- C2: a preview_dataframe call that starts while the guard flag is set only
prints a warning and leaves all other state unchanged; a call that starts with
the flag clear leaves the flag clear on both exit paths (window created, or
body raised and the error propagated), so a subsequent call proceeds normally
and creates a window without a warning. -/
theorem claim_C2_reentrancy :
    (∀ (s : SysState) (bodyErr : Option String), s.viewerRunning = true →
      previewDataframe bodyErr s
        = ({ s with warningsPrinted := s.warningsPrinted + 1 }, Except.ok ())) ∧
    (∀ (s : SysState) (bodyErr : Option String), s.viewerRunning = false →
      (previewDataframe bodyErr s).1.viewerRunning = false ∧
      (bodyErr = none →
        previewDataframe bodyErr s
          = ({ s with windowsCreated := s.windowsCreated + 1, viewerRunning := false },
              Except.ok ())) ∧
      (∀ e, bodyErr = some e →
        previewDataframe bodyErr s
          = ({ s with viewerRunning := false }, Except.error e))) ∧
    (∀ (s : SysState) (bodyErr : Option String), s.viewerRunning = false →
      (previewDataframe none (previewDataframe bodyErr s).1).1.windowsCreated
        = (previewDataframe bodyErr s).1.windowsCreated + 1 ∧
      (previewDataframe none (previewDataframe bodyErr s).1).1.warningsPrinted
        = (previewDataframe bodyErr s).1.warningsPrinted ∧
      (previewDataframe none (previewDataframe bodyErr s).1).2 = Except.ok ()) := by
  refine ⟨?_, ?_, ?_⟩
  · intro s bodyErr h
    simp [previewDataframe, h]
  · intro s bodyErr h
    refine ⟨?_, ?_, ?_⟩
    · cases bodyErr <;> simp [previewDataframe, h]
    · intro he; subst he; simp [previewDataframe, h]
    · intro e he; subst he; simp [previewDataframe, h]
  · intro s bodyErr h
    cases bodyErr <;> simp [previewDataframe, h]

/-- C2 witness: the guarded call, the raising call and the follow-up call
evaluated at concrete states. -/
theorem claim_C2_reentrancy_witness :
    previewDataframe none (SysState.mk true 0 0)
      = (SysState.mk true 1 0, Except.ok ()) ∧
    (previewDataframe (some "boom") (SysState.mk false 0 0)).1.viewerRunning = false ∧
    (previewDataframe none
        (previewDataframe (some "boom") (SysState.mk false 0 0)).1).1.windowsCreated
      = (previewDataframe (some "boom") (SysState.mk false 0 0)).1.windowsCreated + 1 :=
  ⟨claim_C2_reentrancy.1 (SysState.mk true 0 0) none rfl,
    (claim_C2_reentrancy.2.1 (SysState.mk false 0 0) (some "boom") rfl).1,
    (claim_C2_reentrancy.2.2 (SysState.mk false 0 0) (some "boom") rfl).1⟩

/-- C3: a null cell of a well-formed frame (distinct column names) always
surfaces in its display record as the sentinel string N/A. -/
theorem claim_C3_null_sentinel (df : DataFrame) (hwf : df.WF) (hnd : df.cols.Nodup)
    (i j : Nat) (hi : i < df.rows.length) (hj : j < df.cols.length)
    (hnull : cellValue df i j = Value.vNull) :
    cellEntry df i j = some (Value.vStr "N/A") := by
  rw [cellEntry_spec df hwf hnd i j hi hj, hnull]
  rfl

/-- C3 witness: the null cell of the concrete two-row frame. -/
theorem claim_C3_null_sentinel_witness :
    cellValue dfPeople 1 0 = Value.vNull ∧
    cellEntry dfPeople 1 0 = some (Value.vStr "N/A") :=
  ⟨by decide,
    claim_C3_null_sentinel dfPeople (by decide) (by decide) 1 0
      (by decide) (by decide) (by decide)⟩

/-- C4: integer and real cells pass through the conversion unchanged, and a
non-null cell that is neither numeric nor timestamp-like surfaces as its text
representation. -/
theorem claim_C4_coercion (df : DataFrame) (hwf : df.WF) (hnd : df.cols.Nodup)
    (i j : Nat) (hi : i < df.rows.length) (hj : j < df.cols.length) :
    (∀ n : Int, cellValue df i j = Value.vInt n →
      cellEntry df i j = some (Value.vInt n)) ∧
    (∀ q : Rat, cellValue df i j = Value.vFloat q →
      cellEntry df i j = some (Value.vFloat q)) ∧
    ((cellValue df i j).isna = false → (cellValue df i j).isNumeric = false →
      (cellValue df i j).isTimestampLike = false →
      cellEntry df i j = some (Value.vStr (pyStr (cellValue df i j)))) := by
  refine ⟨?_, ?_, ?_⟩
  · intro n hn
    rw [cellEntry_spec df hwf hnd i j hi hj, hn]
    rfl
  · intro q hq
    rw [cellEntry_spec df hwf hnd i j hi hj, hq]
    rfl
  · intro h1 h2 h3
    rw [cellEntry_spec df hwf hnd i j hi hj]
    cases hv : cellValue df i j with
    | vNull => rw [hv] at h1; simp [Value.isna] at h1
    | vInt n => rw [hv] at h2; simp [Value.isNumeric] at h2
    | vFloat q => rw [hv] at h2; simp [Value.isNumeric] at h2
    | vTimestamp t => rw [hv] at h3; simp [Value.isTimestampLike] at h3
    | vStr s => rfl
    | vOther s => rfl

/-- C4 witness: an integer cell, a real cell and an object cell of concrete
frames. -/
theorem claim_C4_coercion_witness :
    cellEntry dfPeople 0 1 = some (Value.vInt 25) ∧
    cellEntry dfMixed 0 0 = some (Value.vFloat 3) ∧
    cellEntry dfMixed 0 1 = some (Value.vStr "True") :=
  ⟨(claim_C4_coercion dfPeople (by decide) (by decide) 0 1 (by decide) (by decide)).1
      25 (by decide),
    (claim_C4_coercion dfMixed (by decide) (by decide) 0 0 (by decide) (by decide)).2.1
      3 (by decide),
    (claim_C4_coercion dfMixed (by decide) (by decide) 0 1 (by decide) (by decide)).2.2
      (by decide) (by decide) (by decide)⟩

/-- C5: timestamp cells are formatted with the %Y-%m-%d %H:%M:%S pattern, and
the timestamp 2023-01-01 00:00:00 formats to exactly that literal string. -/
theorem claim_C5_timestamp (df : DataFrame) (hwf : df.WF) (hnd : df.cols.Nodup)
    (i j : Nat) (hi : i < df.rows.length) (hj : j < df.cols.length) :
    (∀ t : Timestamp, cellValue df i j = Value.vTimestamp t →
      cellEntry df i j = some (Value.vStr t.strftimeYmdHms)) ∧
    Timestamp.strftimeYmdHms (Timestamp.mk 2023 1 1 0 0 0) = "2023-01-01 00:00:00" := by
  constructor
  · intro t ht
    rw [cellEntry_spec df hwf hnd i j hi hj, ht]
    rfl
  · rfl

/-- C5 witness: the concrete timestamp frame maps its cell to the literal. -/
theorem claim_C5_timestamp_witness :
    cellEntry dfStamp 0 0 = some (Value.vStr "2023-01-01 00:00:00") :=
  (claim_C5_timestamp dfStamp (by decide) (by decide) 0 0 (by decide) (by decide)).1
    (Timestamp.mk 2023 1 1 0 0 0) (by decide)

/-- C6: a file path whose lowered suffix is not a recognized extension makes
load_dataframe_from_file fail with the unsupported-format error (wrapped with
the file path by the blanket except clause); no frame is returned, whatever
the readers would do. -/
theorem claim_C6_unsupported (read : String → String → ReadResult) (filepath : String)
    (h : lowerStr (pathSuffix filepath) ∉ supportedExtensions) :
    load_dataframe_from_file read filepath
      = Except.error ("Error loading file '" ++ filepath
          ++ "': " ++ ("Unsupported file format: " ++ lowerStr (pathSuffix filepath))) := by
  simp only [supportedExtensions, List.mem_cons, List.not_mem_nil, or_false, not_or] at h
  obtain ⟨h1, h2, h3, h4, h5, h6, h7, h8, h9⟩ := h
  simp [load_dataframe_from_file, h1, h2, h3, h4, h5, h6, h7, h8, h9]

/-- C6 witness: loading data.xyz fails even when every reader would succeed. -/
theorem claim_C6_unsupported_witness :
    load_dataframe_from_file (fun _ _ => ReadResult.ok default) "data.xyz"
      = Except.error "Error loading file 'data.xyz': Unsupported file format: .xyz" :=
  claim_C6_unsupported (fun _ _ => ReadResult.ok default) "data.xyz" (by decide)

/-- C7: when the reader that the extension dispatch selects raises, the
failure is re-raised as an error whose message embeds the file path. -/
theorem claim_C7_wrap_failure (read : String → String → ReadResult)
    (filepath msg : String)
    (hfail : ∀ r, read r filepath = ReadResult.fail msg)
    (hsupp : lowerStr (pathSuffix filepath) ∈ supportedExtensions) :
    load_dataframe_from_file read filepath
      = Except.error ("Error loading file '" ++ filepath ++ "': " ++ msg) := by
  simp only [supportedExtensions, List.mem_cons, List.not_mem_nil, or_false] at hsupp
  rcases hsupp with h | h | h | h | h | h | h | h | h <;>
    simp [load_dataframe_from_file, h, hfail, runRead]

/-- C7 witness: a failing csv read is wrapped with the path data.csv. -/
theorem claim_C7_wrap_failure_witness :
    load_dataframe_from_file (fun _ _ => ReadResult.fail "boom") "data.csv"
      = Except.error "Error loading file 'data.csv': boom" :=
  claim_C7_wrap_failure (fun _ _ => ReadResult.fail "boom") "data.csv" "boom"
    (fun _ => rfl) (by decide)

/-- C8: a zero-row frame is not a failure: the main fragment prints exactly
one warning and still renders, the prepared data list is empty, and the
display tree carries a table node with an empty data list. -/
theorem claim_C8_empty (df : DataFrame) (title : Option String) (mode : String)
    (h : df.rows = []) :
    (mainAfterLoad df title mode).1 = 1 ∧
    (prepareTableData df).data = [] ∧
    (mainAfterLoad df title mode).2
      = UINode.div [createToolbar (df.rows.length, df.cols.length),
          UINode.div [UINode.table
            (if mode = "simple" then "pandasTable" else "pandasAdvancedTable")
            (prepareTableData df).columns []]] := by
  have hdata : (prepareTableData df).data = [] := by
    simp [prepareTableData, tableDataOfFilled, DataFrame.fillna, h]
  refine ⟨?_, hdata, ?_⟩
  · simp [mainAfterLoad, DataFrame.emptyFlag, h]
  · simp only [mainAfterLoad, renderPage]
    by_cases hm : mode = "simple" <;>
      simp [createTableComponent, createSimpleTable, createAdvancedTable, hm, hdata]

/-- C8 witness: the concrete zero-row frame renders with zero data rows and
one warning. -/
theorem claim_C8_empty_witness :
    (mainAfterLoad dfNoRows none "advanced").1 = 1 ∧
    (prepareTableData dfNoRows).data = [] ∧
    (mainAfterLoad dfNoRows none "advanced").2
      = UINode.div [createToolbar (0, 1),
          UINode.div [UINode.table "pandasAdvancedTable"
            (prepareTableData dfNoRows).columns []]] :=
  claim_C8_empty dfNoRows none "advanced" rfl

/-- C9: PandasTablePage construction rejects every non-frame input with the
descriptive ValueError message and succeeds on every frame input. -/
theorem claim_C9_validation :
    (∀ (desc : String) (title : Option String) (mode : String),
      initPandasTablePage (PyInput.nonDataFrame desc) title mode
        = Except.error "Input must be a pandas DataFrame") ∧
    (∀ (df : DataFrame) (title : Option String) (mode : String),
      initPandasTablePage (PyInput.dataFrame df) title mode
        = Except.ok { dataframe := df, title := title, mode := mode }) :=
  ⟨fun _ _ _ => rfl, fun _ _ _ => rfl⟩

/-- C10: any sequence of render / _prepare_table_data calls leaves the stored
source frame untouched on the heap, and the table data produced comes from
the filled copy of the stored frame. -/
theorem claim_C10_no_mutation (heap : List DataFrame) (self : Nat)
    (hs : self < heap.length) :
    (∀ calls : List ViewerCall,
      (applyCalls self heap calls).getD self default = heap.getD self default) ∧
    (runPrepareHeap heap self).2 = prepareTableData (heap.getD self default) :=
  ⟨fun calls => applyCalls_preserve self calls heap hs,
    runPrepareHeap_data heap self⟩

/-- C10 witness: two calls on the concrete two-row frame leave it unchanged. -/
theorem claim_C10_no_mutation_witness :
    (applyCalls 0 [dfPeople] [ViewerCall.prepareCall, ViewerCall.renderCall "advanced"]).getD
        0 default = dfPeople ∧
    (runPrepareHeap [dfPeople] 0).2 = prepareTableData dfPeople :=
  ⟨(claim_C10_no_mutation [dfPeople] 0 (by decide)).1
      [ViewerCall.prepareCall, ViewerCall.renderCall "advanced"],
    (claim_C10_no_mutation [dfPeople] 0 (by decide)).2⟩

end CacaoPandasUI
